/-
Verification of the course-catalog application (src/app.py) against its
specification.

The application is a small web service over a single JSON document
(`course_catalog.json`).  We model the persisted document as a `FileState`
(absent, unreadable, malformed, or holding a parsed JSON value), JSON values
as the inductive `Json`, and each request handler as a function from the
file state (plus request data) to an `Except Err (Response × FileState)`:
an `.error` value models an uncaught Python exception propagating out of
the handler, the returned `FileState` models the document after the request.

Python-level semantics that the handlers rely on are modelled explicitly:
`Json.item` is subscripting `value[key]` (KeyError / TypeError), `Json.pyIter`
is iteration over a JSON value (lists yield elements, strings yield
one-character strings, dicts yield their keys, everything else raises
TypeError), `Json.pyTruthy` is Python truthiness, and `pyEq` is `==` between
a JSON value and a string (never an error, `False` across types).
An `.obj` node stands for a dict produced by `json.load`, whose keys are
unique, so key lookup uses the first match.  File writes (`open(..., 'w')` +
`json.dump`) are modelled as always succeeding, replacing the document.
-/
import Mathlib

set_option autoImplicit false

universe u v

/-- JSON values as parsed by `json.load`. -/
inductive Json where
  | null
  | bool (b : Bool)
  | num (n : Int)
  | str (s : String)
  | arr (xs : List Json)
  | obj (kvs : List (String × Json))

/-- Errors that can propagate out of an operation: the uncaught Python
exceptions relevant to this program. -/
inductive PyErr where
  | ioError
  | decodeError
  | keyError
  | typeError
  | badRequest
  | attrError
deriving DecidableEq, Repr

/-- Python subscripting `j[k]` with a string key: a dict yields the value
stored under `k` or raises `KeyError`; every other JSON value raises
`TypeError`. -/
def Json.item (j : Json) (k : String) : Except PyErr Json :=
  match j with
  | .obj kvs =>
    match kvs.find? (fun p => p.1 == k) with
    | some p => .ok p.2
    | none => .error .keyError
  | _ => .error .typeError

/-- Python iteration over a JSON value: lists yield their elements, strings
their one-character substrings, dicts their keys; other values raise
`TypeError`. -/
def Json.pyIter (j : Json) : Except PyErr (List Json) :=
  match j with
  | .arr xs => .ok xs
  | .str s => .ok (s.data.map (fun c => .str (String.singleton c)))
  | .obj kvs => .ok (kvs.map (fun p => .str p.1))
  | _ => .error .typeError

/-- Python truthiness of a JSON value. -/
def Json.pyTruthy (j : Json) : Bool :=
  match j with
  | .null => false
  | .bool b => b
  | .num n => n != 0
  | .str s => !s.isEmpty
  | .arr xs => !xs.isEmpty
  | .obj kvs => !kvs.isEmpty

/-- Python `==` between a JSON value and a string: equal only when the value
is that string; comparisons across types are `False`, never an error. -/
def pyEq (j : Json) (s : String) : Bool :=
  match j with
  | .str t => t == s
  | _ => false

/-- State of the backing document `course_catalog.json`: absent, present but
unreadable (read raises `IOError`), present but not well-formed JSON
(`json.load` raises a decode error), or present with parsed content `j`. -/
inductive FileState where
  | absent
  | unreadable
  | malformed
  | content (j : Json)

/-- Whether the backing document exists on disk. -/
def FileState.existsFile : FileState → Bool
  | .absent => false
  | _ => true

/-- A course record as submitted through the add-course form: four string
fields. -/
structure Course where
  name : String
  code : String
  description : String
  instructor : String

/-- The dict built by the save handler from a course record, with the
field order used at src/app.py lines 92-97. -/
def Course.toJson (c : Course) : Json :=
  .obj [("name", .str c.name), ("code", .str c.code),
        ("description", .str c.description), ("instructor", .str c.instructor)]

/-- `load_courses` (src/app.py lines 38-44): returns `[]` when the file does
not exist; otherwise opens and JSON-decodes it, letting `IOError` and decode
errors propagate. -/
def load_courses (fs : FileState) : Except PyErr Json :=
  match fs with
  | .absent => .ok (.arr [])
  | .unreadable => .error .ioError
  | .malformed => .error .decodeError
  | .content j => .ok j

/-- Python `courses.append(data)` on a loaded JSON value: only a list has an
`append` method; any other value raises `AttributeError`. -/
def pyAppend (j : Json) (data : Json) : Except PyErr (List Json) :=
  match j with
  | .arr xs => .ok (xs ++ [data])
  | _ => .error .attrError

/-- `save_courses` (src/app.py lines 48-54): loads the existing courses,
appends the new record, and rewrites the whole document with the result. -/
def save_courses (data : Json) (fs : FileState) : Except PyErr FileState := do
  let js ← load_courses fs
  let courses ← pyAppend js data
  return .content (.arr courses)

/-- The notice flashed by the detail handler when no course matches
(src/app.py line 78). -/
def noCourseMsg (code : String) : String :=
  "No course found with code \x27" ++ code ++ "\x27."

/-- The notice flashed by the delete handler (src/app.py line 117). -/
def deletedMsg (code : String) : String :=
  "Course with code \x27" ++ code ++ "\x27 has been deleted."

/-- The outcome a handler hands to the web framework: either a rendered
template or a redirect to the catalog view carrying flashed
(message, category) notices. -/
inductive Response where
  | renderIndex
  | renderAddForm
  | renderCatalog (courses : Json)
  | renderDetails (course : Json)
  | redirectCatalog (notices : List (String × String))

/-- The lazy scan `next((course for course in courses if course[CODE] == code),
None)` at src/app.py line 75: elements are examined in order, the subscript
error of a non-conforming element propagates only if reached, and the scan
stops at the first match. -/
def findFirst (cs : List Json) (code : String) : Except PyErr (Option Json) :=
  match cs with
  | [] => .ok none
  | c :: rest => do
    let v ← c.item "code"
    if pyEq v code then return some c else findFirst rest code

/-- The list comprehension `[course for course in courses if course[CODE] !=
code]` at src/app.py line 113: every element is examined, the first subscript
error propagates. -/
def pyFilterNeqCode (cs : List Json) (code : String) : Except PyErr (List Json) :=
  match cs with
  | [] => .ok []
  | c :: rest => do
    let v ← c.item "code"
    let tail ← pyFilterNeqCode rest code
    if pyEq v code then return tail else return c :: tail

/-- Handler for GET `/` (src/app.py lines 58-61): renders the home page. -/
def index (fs : FileState) : Except PyErr (Response × FileState) :=
  .ok (.renderIndex, fs)

/-- Handler for GET `/add_course` (src/app.py lines 121-124): renders the
add-course form. -/
def add_course (fs : FileState) : Except PyErr (Response × FileState) :=
  .ok (.renderAddForm, fs)

/-- Handler for GET `/catalog` (src/app.py lines 64-68): loads the courses
and renders the catalog view with them. -/
def course_catalog (fs : FileState) : Except PyErr (Response × FileState) := do
  let courses ← load_courses fs
  return (.renderCatalog courses, fs)

/-- Handler for GET `/course/<code>` (src/app.py lines 71-81): loads the
courses, scans for the first whose `code` equals the argument, and either
renders the detail view or flashes a not-found notice and redirects. -/
def course_details (fs : FileState) (code : String) :
    Except PyErr (Response × FileState) := do
  let js ← load_courses fs
  let courses ← js.pyIter
  let course ← findFirst courses code
  match course with
  | some c =>
    if c.pyTruthy then
      return (.renderDetails c, fs)
    else
      return (.redirectCatalog [(noCourseMsg code, "error")], fs)
  | none => return (.redirectCatalog [(noCourseMsg code, "error")], fs)

/-- The submitted form of a POST request: (field, value) pairs. -/
def formGet (form : List (String × String)) (k : String) : Except PyErr String :=
  match form.find? (fun p => p.1 == k) with
  | some p => .ok p.2
  | none => .error .badRequest

/-- The body of the `try` block of the save handler (src/app.py lines 88-98):
reads the four mandatory form fields (a missing one raises), builds the
course dict, and saves it. -/
def trySave (fs : FileState) (form : List (String × String)) :
    Except PyErr FileState := do
  let name ← formGet form "name"
  let code ← formGet form "code"
  let description ← formGet form "description"
  let instructor ← formGet form "instructor"
  save_courses (.obj [("name", .str name), ("code", .str code),
    ("description", .str description), ("instructor", .str instructor)]) fs

/-- Handler for POST `/save_course` (src/app.py lines 84-106): on success
flashes a success notice; any exception during construction or save is
caught and a failure notice flashed; either way it redirects to the
catalog view. -/
def save_course (fs : FileState) (form : List (String × String)) :
    Except PyErr (Response × FileState) :=
  match trySave fs form with
  | .ok fs' => .ok (.redirectCatalog [("Course added successfully!", "success")], fs')
  | .error _ => .ok (.redirectCatalog [("Failed to add course.", "error")], fs)

/-- Handler for POST `/delete_course/<code>` (src/app.py lines 109-118):
loads the courses, filters out those whose `code` equals the argument,
rewrites the whole document with the result, flashes a success notice and
redirects to the catalog view. -/
def delete_course (fs : FileState) (code : String) :
    Except PyErr (Response × FileState) := do
  let js ← load_courses fs
  let courses ← js.pyIter
  let updated ← pyFilterNeqCode courses code
  return (.redirectCatalog [(deletedMsg code, "success")], .content (.arr updated))

/-- Value of a span attribute set by `span.set_attribute`. -/
inductive AttrVal where
  | b (bv : Bool)
  | s (sv : String)

/-- An observability span: a name and the attributes set before completion.
Handlers append their span after the spans of the Store operations they
invoked; a span is recorded on every exit path, exceptional or not. -/
structure Span where
  name : String
  attrs : List (String × AttrVal)

/-- Traced `load_courses`: the body runs inside a span named
`load_courses` (src/app.py line 40); no attributes are set. -/
def load_courses_traced (fs : FileState) : Except PyErr Json × List Span :=
  match fs with
  | .absent => (.ok (.arr []), [⟨"load_courses", []⟩])
  | .unreadable => (.error .ioError, [⟨"load_courses", []⟩])
  | .malformed => (.error .decodeError, [⟨"load_courses", []⟩])
  | .content j => (.ok j, [⟨"load_courses", []⟩])

/-- Traced `save_courses` (src/app.py line 50): its span closes after the
nested `load_courses` span, with no attributes, also when an exception
escapes. -/
def save_courses_traced (data : Json) (fs : FileState) :
    Except PyErr FileState × List Span :=
  match load_courses_traced fs with
  | (.error e, ls) => (.error e, ls ++ [⟨"save_courses", []⟩])
  | (.ok js, ls) =>
    match pyAppend js data with
    | .error e => (.error e, ls ++ [⟨"save_courses", []⟩])
    | .ok courses => (.ok (.content (.arr courses)), ls ++ [⟨"save_courses", []⟩])

/-- Traced home handler: span `index_page` (src/app.py line 60). -/
def index_traced (fs : FileState) :
    Except PyErr (Response × FileState) × List Span :=
  (.ok (.renderIndex, fs), [⟨"index_page", []⟩])

/-- Traced add-course form handler: span `add_course_page`
(src/app.py line 123). -/
def add_course_traced (fs : FileState) :
    Except PyErr (Response × FileState) × List Span :=
  (.ok (.renderAddForm, fs), [⟨"add_course_page", []⟩])

/-- Traced catalog handler: span `course_catalog` (src/app.py line 66)
around the load and the render. -/
def course_catalog_traced (fs : FileState) :
    Except PyErr (Response × FileState) × List Span :=
  match load_courses_traced fs with
  | (.error e, ls) => (.error e, ls ++ [⟨"course_catalog", []⟩])
  | (.ok js, ls) => (.ok (.renderCatalog js, fs), ls ++ [⟨"course_catalog", []⟩])

/-- Traced detail handler: span `course_details` (src/app.py line 73); on a
failed lookup it sets `error := true`, on success `course_code := code`
(src/app.py lines 77 and 80). -/
def course_details_traced (fs : FileState) (code : String) :
    Except PyErr (Response × FileState) × List Span :=
  match load_courses_traced fs with
  | (.error e, ls) => (.error e, ls ++ [⟨"course_details", []⟩])
  | (.ok js, ls) =>
    match js.pyIter with
    | .error e => (.error e, ls ++ [⟨"course_details", []⟩])
    | .ok courses =>
      match findFirst courses code with
      | .error e => (.error e, ls ++ [⟨"course_details", []⟩])
      | .ok (some c) =>
        if c.pyTruthy then
          (.ok (.renderDetails c, fs),
           ls ++ [⟨"course_details", [("course_code", .s code)]⟩])
        else
          (.ok (.redirectCatalog [(noCourseMsg code, "error")], fs),
           ls ++ [⟨"course_details", [("error", .b true)]⟩])
      | .ok none =>
        (.ok (.redirectCatalog [(noCourseMsg code, "error")], fs),
         ls ++ [⟨"course_details", [("error", .b true)]⟩])

/-- Traced save handler: span `save_course` (src/app.py line 86); on success
it sets `course_name` and `course_code` (lines 100-101), on any caught
exception only `error := true` (line 104), discarding the cause. -/
def save_course_traced (fs : FileState) (form : List (String × String)) :
    Except PyErr (Response × FileState) × List Span :=
  match formGet form "name", formGet form "code",
        formGet form "description", formGet form "instructor" with
  | .ok name, .ok code, .ok description, .ok instructor =>
    match save_courses_traced (.obj [("name", .str name), ("code", .str code),
        ("description", .str description), ("instructor", .str instructor)]) fs with
    | (.ok fs', ls) =>
      (.ok (.redirectCatalog [("Course added successfully!", "success")], fs'),
       ls ++ [⟨"save_course", [("course_name", .s name), ("course_code", .s code)]⟩])
    | (.error _, ls) =>
      (.ok (.redirectCatalog [("Failed to add course.", "error")], fs),
       ls ++ [⟨"save_course", [("error", .b true)]⟩])
  | _, _, _, _ =>
    (.ok (.redirectCatalog [("Failed to add course.", "error")], fs),
     [⟨"save_course", [("error", .b true)]⟩])

/-- Traced delete handler: span `delete_course` (src/app.py line 111); it
sets `deleted_course_code` unconditionally on the successful path
(line 116). -/
def delete_course_traced (fs : FileState) (code : String) :
    Except PyErr (Response × FileState) × List Span :=
  match load_courses_traced fs with
  | (.error e, ls) => (.error e, ls ++ [⟨"delete_course", []⟩])
  | (.ok js, ls) =>
    match js.pyIter with
    | .error e => (.error e, ls ++ [⟨"delete_course", []⟩])
    | .ok courses =>
      match pyFilterNeqCode courses code with
      | .error e => (.error e, ls ++ [⟨"delete_course", []⟩])
      | .ok updated =>
        (.ok (.redirectCatalog [(deletedMsg code, "success")],
              .content (.arr updated)),
         ls ++ [⟨"delete_course", [("deleted_course_code", .s code)]⟩])

/-- The course dict stores the course code under the key `code`. -/
theorem item_code_toJson (c : Course) :
    (Course.toJson c).item "code" = .ok (.str c.code) := rfl

/-- A course dict is nonempty, hence truthy in Python. -/
theorem pyTruthy_toJson (c : Course) : (Course.toJson c).pyTruthy = true := rfl

/-- Reduction of the `Except` monad bind on a success value. -/
@[simp] theorem exceptOk_bind {ε : Type u} {α β : Type v} (a : α)
    (f : α → Except ε β) : (Except.ok a : Except ε α) >>= f = f a := rfl

/-- Reduction of the `Except` monad bind on an error value. -/
@[simp] theorem exceptError_bind {ε : Type u} {α β : Type v} (e : ε)
    (f : α → Except ε β) : (Except.error e : Except ε α) >>= f = .error e := rfl

/-- `pure` in the `Except` monad is `Except.ok`. -/
@[simp] theorem except_pure_eq_ok {ε : Type u} {α : Type v} (a : α) :
    (pure a : Except ε α) = .ok a := rfl

/-- On a catalog of well-formed course dicts, the lazy lookup scan computes
`List.find?` on the records. -/
theorem findFirst_map_toJson (cs : List Course) (code : String) :
    findFirst (cs.map Course.toJson) code =
      .ok ((cs.find? (fun c => c.code == code)).map Course.toJson) := by
  induction cs with
  | nil => rfl
  | cons c rest ih =>
    cases h : (c.code == code) <;>
      simp [findFirst, item_code_toJson, pyEq, List.find?, h, ih]

/-- On a catalog of well-formed course dicts, the delete comprehension
computes `List.filter` on the records. -/
theorem pyFilterNeqCode_map_toJson (cs : List Course) (code : String) :
    pyFilterNeqCode (cs.map Course.toJson) code =
      .ok ((cs.filter (fun c => c.code != code)).map Course.toJson) := by
  induction cs with
  | nil => rfl
  | cons c rest ih =>
    cases h : (c.code == code) <;>
      simp [pyFilterNeqCode, item_code_toJson, pyEq, List.filter, bne, h, ih]

/-- C1: saving a Course on top of any persisted catalog and reloading yields
the previous sequence with exactly that course dict appended: the reloaded
array is the old one followed by `c.toJson`, so its last element equals the
saved course field-for-field and the earlier elements are the prior catalog
in order. -/
theorem saveReload_roundTrip (fs : FileState) (prev : List Json) (c : Course)
    (h : load_courses fs = .ok (.arr prev)) :
    save_courses c.toJson fs = .ok (.content (.arr (prev ++ [c.toJson]))) ∧
    load_courses (.content (.arr (prev ++ [c.toJson]))) =
      .ok (.arr (prev ++ [c.toJson])) ∧
    (prev ++ [c.toJson]).getLast? = some c.toJson ∧
    (prev ++ [c.toJson]).dropLast = prev := by
  refine ⟨?_, rfl, by simp, by simp⟩
  simp [save_courses, h, pyAppend, Except.bind]

/-- C1 witness: saving a concrete course into an absent document stores the
one-element catalog. -/
theorem saveReload_roundTrip_witness :
    save_courses (Course.toJson ⟨"Algorithms", "CS301", "Desc", "DrX"⟩) .absent =
      .ok (.content (.arr [Course.toJson ⟨"Algorithms", "CS301", "Desc", "DrX"⟩])) :=
  (saveReload_roundTrip .absent [] ⟨"Algorithms", "CS301", "Desc", "DrX"⟩ rfl).1

/-- C4: loading from a nonexistent document yields the empty sequence
without error; a malformed document raises the decode error and an
unreadable one the I/O error, both propagating uncaught out of
`load_courses`. -/
theorem load_courses_error_modes :
    load_courses .absent = .ok (.arr []) ∧
    load_courses .malformed = .error .decodeError ∧
    load_courses .unreadable = .error .ioError :=
  ⟨rfl, rfl, rfl⟩

/-- C2: on a catalog of course records, the delete handler rewrites the
document with exactly the records whose `code` differs from the argument,
in their original relative order (a `List.filter`); when no record matches,
the written sequence equals the original catalog, with no error. -/
theorem delete_course_removeByCode (cs : List Course) (code : String) :
    delete_course (.content (.arr (cs.map Course.toJson))) code =
      .ok (.redirectCatalog [(deletedMsg code, "success")],
        .content (.arr ((cs.filter (fun c => c.code != code)).map Course.toJson))) ∧
    ((∀ c ∈ cs, c.code ≠ code) →
      (cs.filter (fun c => c.code != code)).map Course.toJson =
        cs.map Course.toJson) := by
  constructor
  · simp [delete_course, load_courses, Json.pyIter, pyFilterNeqCode_map_toJson]
  · intro h
    congr 1
    apply List.filter_eq_self.mpr
    intro c hc
    simp [bne, h c hc]

/-- C2 witness: deleting code 2 from a two-record catalog keeps record A;
deleting an absent code 9 keeps the catalog unchanged. -/
theorem delete_course_removeByCode_witness :
    delete_course (.content (.arr (([⟨"A", "1", "dA", "iA"⟩, ⟨"B", "2", "dB", "iB"⟩] :
        List Course).map Course.toJson))) "2" =
      .ok (.redirectCatalog [(deletedMsg "2", "success")],
        .content (.arr ((([⟨"A", "1", "dA", "iA"⟩, ⟨"B", "2", "dB", "iB"⟩] :
          List Course).filter (fun c => c.code != "2")).map Course.toJson))) ∧
    (([⟨"A", "1", "dA", "iA"⟩, ⟨"B", "2", "dB", "iB"⟩] :
        List Course).filter (fun c => c.code != "9")).map Course.toJson =
      ([⟨"A", "1", "dA", "iA"⟩, ⟨"B", "2", "dB", "iB"⟩] :
        List Course).map Course.toJson :=
  ⟨(delete_course_removeByCode [⟨"A", "1", "dA", "iA"⟩, ⟨"B", "2", "dB", "iB"⟩] "2").1,
   (delete_course_removeByCode [⟨"A", "1", "dA", "iA"⟩, ⟨"B", "2", "dB", "iB"⟩] "9").2
     (by decide)⟩

/-- C3: on a catalog of course records, the detail handler renders the first
record whose `code` equals the requested code; when none matches it
redirects to the catalog view with an error notice whose text contains the
requested code, and the persisted document is returned unchanged. -/
theorem course_details_findByCode (cs : List Course) (code : String) :
    (∀ c : Course, cs.find? (fun c2 => c2.code == code) = some c →
      course_details (.content (.arr (cs.map Course.toJson))) code =
        .ok (.renderDetails c.toJson, .content (.arr (cs.map Course.toJson)))) ∧
    (cs.find? (fun c2 => c2.code == code) = none →
      course_details (.content (.arr (cs.map Course.toJson))) code =
        .ok (.redirectCatalog [(noCourseMsg code, "error")],
          .content (.arr (cs.map Course.toJson)))) ∧
    (∃ p q, noCourseMsg code = p ++ (code ++ q)) := by
  refine ⟨?_, ?_, "No course found with code \x27", "\x27.", rfl⟩
  · intro c hf
    simp [course_details, load_courses, Json.pyIter, findFirst_map_toJson, hf,
      pyTruthy_toJson]
  · intro hf
    simp [course_details, load_courses, Json.pyIter, findFirst_map_toJson, hf]

/-- C3 witness: in the one-record catalog with code 1, requesting code 1
renders that record and requesting code 99 redirects with the not-found
notice. -/
theorem course_details_findByCode_witness :
    course_details (.content (.arr (([⟨"A", "1", "d", "i"⟩] :
        List Course).map Course.toJson))) "1" =
      .ok (.renderDetails (Course.toJson ⟨"A", "1", "d", "i"⟩),
        .content (.arr (([⟨"A", "1", "d", "i"⟩] : List Course).map Course.toJson))) ∧
    course_details (.content (.arr (([⟨"A", "1", "d", "i"⟩] :
        List Course).map Course.toJson))) "99" =
      .ok (.redirectCatalog [(noCourseMsg "99", "error")],
        .content (.arr (([⟨"A", "1", "d", "i"⟩] : List Course).map Course.toJson))) :=
  ⟨(course_details_findByCode [⟨"A", "1", "d", "i"⟩] "1").1 ⟨"A", "1", "d", "i"⟩ rfl,
   (course_details_findByCode [⟨"A", "1", "d", "i"⟩] "99").2.1 rfl⟩

/-- C5: when the submitted form omits any of the four required fields, the
save handler recovers locally: it redirects to the catalog view with the
failure notice and the backing document is returned unchanged (no append
happens). -/
theorem save_course_missing_field (fs : FileState) (form : List (String × String))
    (h : form.find? (fun p => p.1 == "name") = none ∨
         form.find? (fun p => p.1 == "code") = none ∨
         form.find? (fun p => p.1 == "description") = none ∨
         form.find? (fun p => p.1 == "instructor") = none) :
    save_course fs form =
      .ok (.redirectCatalog [("Failed to add course.", "error")], fs) := by
  have hts : ∃ e, trySave fs form = .error e := by
    rcases h with h | h | h | h
    · exact ⟨.badRequest, by simp [trySave, formGet, h]⟩
    · cases hn : form.find? (fun p => p.1 == "name") with
      | none => exact ⟨.badRequest, by simp [trySave, formGet, hn]⟩
      | some pn => exact ⟨.badRequest, by simp [trySave, formGet, hn, h]⟩
    · cases hn : form.find? (fun p => p.1 == "name") with
      | none => exact ⟨.badRequest, by simp [trySave, formGet, hn]⟩
      | some pn =>
        cases hc : form.find? (fun p => p.1 == "code") with
        | none => exact ⟨.badRequest, by simp [trySave, formGet, hn, hc]⟩
        | some pc => exact ⟨.badRequest, by simp [trySave, formGet, hn, hc, h]⟩
    · cases hn : form.find? (fun p => p.1 == "name") with
      | none => exact ⟨.badRequest, by simp [trySave, formGet, hn]⟩
      | some pn =>
        cases hc : form.find? (fun p => p.1 == "code") with
        | none => exact ⟨.badRequest, by simp [trySave, formGet, hn, hc]⟩
        | some pc =>
          cases hd : form.find? (fun p => p.1 == "description") with
          | none => exact ⟨.badRequest, by simp [trySave, formGet, hn, hc, hd]⟩
          | some pd => exact ⟨.badRequest, by simp [trySave, formGet, hn, hc, hd, h]⟩
  obtain ⟨e, he⟩ := hts
  simp [save_course, he]

/-- C5 witness: posting a form without the `instructor` field to the save
handler yields the failure redirect and leaves the document as it was. -/
theorem save_course_missing_field_witness :
    save_course (.content (.arr []))
        [("name", "N"), ("code", "C"), ("description", "D")] =
      .ok (.redirectCatalog [("Failed to add course.", "error")],
        .content (.arr [])) :=
  save_course_missing_field (.content (.arr []))
    [("name", "N"), ("code", "C"), ("description", "D")]
    (Or.inr (Or.inr (Or.inr (by decide))))

/-- C8: the delete handler always responds with a redirect to the catalog
view carrying a success notice whose text names the requested code — also
when no record with that code exists (including the absent-document case),
where the catalog contents are untouched but the notice still claims
success. -/
theorem delete_course_success_notice (cs : List Course) (code : String) :
    (∃ fs', delete_course (.content (.arr (cs.map Course.toJson))) code =
      .ok (.redirectCatalog [(deletedMsg code, "success")], fs')) ∧
    (∃ fs', delete_course .absent code =
      .ok (.redirectCatalog [(deletedMsg code, "success")], fs')) ∧
    (∃ p q, deletedMsg code = p ++ (code ++ q)) := by
  refine ⟨⟨.content (.arr ((cs.filter (fun c => c.code != code)).map Course.toJson)), ?_⟩,
    ⟨.content (.arr []), rfl⟩,
    "Course with code \x27", "\x27 has been deleted.", rfl⟩
  simp [delete_course, load_courses, Json.pyIter, pyFilterNeqCode_map_toJson]

/-- C6 counterexample: with a malformed backing document and a complete
form, the save handler catches the decode error raised by the load inside
`save_courses` and answers with a redirect-with-notice instead of letting
it propagate. -/
theorem decode_error_recovered_in_save :
    load_courses .malformed = .error .decodeError ∧
    save_course .malformed
        [("name", "N"), ("code", "C"), ("description", "D"), ("instructor", "I")] =
      .ok (.redirectCatalog [("Failed to add course.", "error")], .malformed) :=
  ⟨rfl, rfl⟩

/-- C6 amended: load (I/O and decode) failures are fatal to the request in
every handler that reads the document except the save handler: the catalog,
detail and delete handlers propagate them uncaught, while the save handler
catches every exception raised during construction or save — including
I/O and decode errors from the load inside `save_courses` — and always
answers with a redirect carrying a notice. -/
theorem load_failure_propagation :
    (∀ code : String,
      course_details .unreadable code = .error .ioError ∧
      course_details .malformed code = .error .decodeError ∧
      delete_course .unreadable code = .error .ioError ∧
      delete_course .malformed code = .error .decodeError) ∧
    course_catalog .unreadable = .error .ioError ∧
    course_catalog .malformed = .error .decodeError ∧
    (∀ (fs : FileState) (form : List (String × String)), ∃ notice fs',
      save_course fs form = .ok (.redirectCatalog [notice], fs')) := by
  refine ⟨fun code => ⟨rfl, rfl, rfl, rfl⟩, rfl, rfl, fun fs form => ?_⟩
  cases h : trySave fs form with
  | ok fs' =>
    exact ⟨("Course added successfully!", "success"), fs', by simp [save_course, h]⟩
  | error e =>
    exact ⟨("Failed to add course.", "error"), fs, by simp [save_course, h]⟩

/-- C7 counterexample: a delete request against an absent backing document
succeeds and rewrites the document, bringing the file into existence (with
an empty array) although no save happened. -/
theorem delete_course_creates_absent_file :
    delete_course .absent "CS301" =
      .ok (.redirectCatalog [(deletedMsg "CS301", "success")], .content (.arr [])) ∧
    FileState.existsFile .absent = false ∧
    FileState.existsFile (.content (.arr [])) = true :=
  ⟨rfl, rfl, rfl⟩

/-- C7 amended: an absent document is treated as an empty catalog; no GET
handler changes the document state and a save whose construction or save
step fails leaves it unchanged, but the delete handler always rewrites the
document, so a delete against an absent file creates it holding an empty
array. -/
theorem file_creation_policy :
    (∀ (fs : FileState) (r : Response) (fs' : FileState),
      index fs = .ok (r, fs') → fs' = fs) ∧
    (∀ (fs : FileState) (r : Response) (fs' : FileState),
      add_course fs = .ok (r, fs') → fs' = fs) ∧
    (∀ (fs : FileState) (r : Response) (fs' : FileState),
      course_catalog fs = .ok (r, fs') → fs' = fs) ∧
    (∀ (fs : FileState) (code : String) (r : Response) (fs' : FileState),
      course_details fs code = .ok (r, fs') → fs' = fs) ∧
    (∀ (fs : FileState) (form : List (String × String)) (e : PyErr),
      trySave fs form = .error e → ∃ r, save_course fs form = .ok (r, fs)) ∧
    (∀ code : String, delete_course .absent code =
      .ok (.redirectCatalog [(deletedMsg code, "success")], .content (.arr []))) := by
  refine ⟨?_, ?_, ?_, ?_, ?_, fun code => rfl⟩
  · intro fs r fs' h
    simp [index] at h
    exact h.2.symm
  · intro fs r fs' h
    simp [add_course] at h
    exact h.2.symm
  · intro fs r fs' h
    cases hl : load_courses fs <;> simp [course_catalog, hl] at h
    exact h.2.symm
  · intro fs code r fs' h
    cases hl : load_courses fs <;> simp [course_details, hl] at h
    case ok js =>
    cases hi : js.pyIter <;> rw [hi] at h <;> simp at h
    case ok cs =>
    cases hf : findFirst cs code <;> rw [hf] at h <;> simp at h
    case ok co =>
    cases co with
    | none =>
      simp at h
      exact h.2.symm
    | some c =>
      cases hct : c.pyTruthy <;> simp [hct] at h <;> exact h.2.symm
  · intro fs form e h
    exact ⟨.redirectCatalog [("Failed to add course.", "error")],
      by simp [save_course, h]⟩

/-- C7 amended witness: a save attempt whose form is empty fails during
construction and leaves the malformed document exactly as it was. -/
theorem file_creation_policy_witness :
    ∃ r, save_course .malformed [] = .ok (r, .malformed) :=
  file_creation_policy.2.2.2.2.1 .malformed [] .badRequest rfl

/-- The traced load is the untraced load paired with its single span. -/
theorem load_courses_traced_eq (fs : FileState) :
    load_courses_traced fs = (load_courses fs, [⟨"load_courses", []⟩]) := by
  cases fs <;> rfl

/-- The traced save is the untraced save paired with the nested load span
and its own span, on every path. -/
theorem save_courses_traced_eq (data : Json) (fs : FileState) :
    save_courses_traced data fs =
      (save_courses data fs, [⟨"load_courses", []⟩, ⟨"save_courses", []⟩]) := by
  cases hl : load_courses fs with
  | error e => simp [save_courses_traced, load_courses_traced_eq, hl, save_courses]
  | ok js =>
    cases ha : pyAppend js data <;>
      simp [save_courses_traced, load_courses_traced_eq, hl, ha, save_courses]

/-- Traced and untraced catalog handler agree on the result. -/
theorem course_catalog_traced_fst (fs : FileState) :
    (course_catalog_traced fs).1 = course_catalog fs := by
  cases hl : load_courses fs <;>
    simp [course_catalog_traced, load_courses_traced_eq, hl, course_catalog]

/-- Traced and untraced detail handler agree on the result. -/
theorem course_details_traced_fst (fs : FileState) (code : String) :
    (course_details_traced fs code).1 = course_details fs code := by
  cases hl : load_courses fs with
  | error e => simp [course_details_traced, load_courses_traced_eq, hl, course_details]
  | ok js =>
    cases hi : js.pyIter with
    | error e =>
      simp [course_details_traced, load_courses_traced_eq, hl, hi, course_details]
    | ok cs =>
      cases hf : findFirst cs code with
      | error e =>
        simp [course_details_traced, load_courses_traced_eq, hl, hi, hf, course_details]
      | ok co =>
        cases co with
        | none =>
          simp [course_details_traced, load_courses_traced_eq, hl, hi, hf, course_details]
        | some c =>
          cases hct : c.pyTruthy <;>
            simp [course_details_traced, load_courses_traced_eq, hl, hi, hf, hct,
              course_details]

/-- Traced and untraced save handler agree on the result. -/
theorem save_course_traced_fst (fs : FileState) (form : List (String × String)) :
    (save_course_traced fs form).1 = save_course fs form := by
  cases hn : formGet form "name" with
  | error e => simp [save_course_traced, hn, save_course, trySave]
  | ok name =>
  cases hc : formGet form "code" with
  | error e => simp [save_course_traced, hn, hc, save_course, trySave]
  | ok code =>
  cases hd : formGet form "description" with
  | error e => simp [save_course_traced, hn, hc, hd, save_course, trySave]
  | ok description =>
  cases hin : formGet form "instructor" with
  | error e => simp [save_course_traced, hn, hc, hd, hin, save_course, trySave]
  | ok instructor =>
  cases hs : save_courses (.obj [("name", .str name), ("code", .str code),
      ("description", .str description), ("instructor", .str instructor)]) fs <;>
    simp [save_course_traced, hn, hc, hd, hin, save_courses_traced_eq, hs,
      save_course, trySave]

/-- Traced and untraced delete handler agree on the result. -/
theorem delete_course_traced_fst (fs : FileState) (code : String) :
    (delete_course_traced fs code).1 = delete_course fs code := by
  cases hl : load_courses fs with
  | error e => simp [delete_course_traced, load_courses_traced_eq, hl, delete_course]
  | ok js =>
    cases hi : js.pyIter with
    | error e =>
      simp [delete_course_traced, load_courses_traced_eq, hl, hi, delete_course]
    | ok cs =>
      cases hf : pyFilterNeqCode cs code <;>
        simp [delete_course_traced, load_courses_traced_eq, hl, hi, hf, delete_course]

/-- C9: the tracing wrapper is a pure observability side channel: for every
document state and request input, the first projection of each traced
Store operation and handler — its result, including redirect targets,
notice texts and the contents written back to the document — equals the
untraced operation; only the span log differs. -/
theorem tracing_transparent :
    (∀ fs : FileState, (load_courses_traced fs).1 = load_courses fs) ∧
    (∀ (data : Json) (fs : FileState),
      (save_courses_traced data fs).1 = save_courses data fs) ∧
    (∀ fs : FileState, (index_traced fs).1 = index fs) ∧
    (∀ fs : FileState, (add_course_traced fs).1 = add_course fs) ∧
    (∀ fs : FileState, (course_catalog_traced fs).1 = course_catalog fs) ∧
    (∀ (fs : FileState) (code : String),
      (course_details_traced fs code).1 = course_details fs code) ∧
    (∀ (fs : FileState) (form : List (String × String)),
      (save_course_traced fs form).1 = save_course fs form) ∧
    (∀ (fs : FileState) (code : String),
      (delete_course_traced fs code).1 = delete_course fs code) :=
  ⟨fun fs => by rw [load_courses_traced_eq],
   fun data fs => by rw [save_courses_traced_eq],
   fun _ => rfl,
   fun _ => rfl,
   course_catalog_traced_fst,
   course_details_traced_fst,
   save_course_traced_fst,
   delete_course_traced_fst⟩

/-- A failing subscript `j[CODE]` raises either `KeyError` (dict without the
key) or `TypeError` (non-dict value). -/
theorem item_error_lookup (j : Json) (k : String) (e : PyErr)
    (h : j.item k = .error e) : e = .keyError ∨ e = .typeError := by
  cases j with
  | obj kvs =>
    cases hf : List.find? (fun p => p.1 == k) kvs with
    | none =>
      simp [Json.item, hf] at h
      exact Or.inl h.symm
    | some p => simp [Json.item, hf] at h
  | null => simp [Json.item] at h; exact Or.inr h.symm
  | bool b => simp [Json.item] at h; exact Or.inr h.symm
  | num n => simp [Json.item] at h; exact Or.inr h.symm
  | str s => simp [Json.item] at h; exact Or.inr h.symm
  | arr xs => simp [Json.item] at h; exact Or.inr h.symm

/-- If any element of the list makes the subscript `course[CODE]` fail, the
strict delete comprehension fails with that lookup error. -/
theorem pyFilterNeqCode_error_of_bad (js : List Json) (code : String)
    (h : ∃ j ∈ js, ∃ e, j.item "code" = .error e) :
    ∃ e, pyFilterNeqCode js code = .error e ∧
      (e = .keyError ∨ e = .typeError) := by
  induction js with
  | nil =>
    obtain ⟨j, hj, _⟩ := h
    exact absurd hj (List.not_mem_nil j)
  | cons c rest ih =>
    cases hc : c.item "code" with
    | error e =>
      exact ⟨e, by simp [pyFilterNeqCode, hc], item_error_lookup _ _ _ hc⟩
    | ok v =>
      have hrest : ∃ j ∈ rest, ∃ e, j.item "code" = .error e := by
        obtain ⟨j, hj, e, he⟩ := h
        rcases List.mem_cons.mp hj with rfl | hj2
        · rw [hc] at he
          cases he
        · exact ⟨j, hj2, e, he⟩
      obtain ⟨e, he, hcls⟩ := ih hrest
      exact ⟨e, by simp [pyFilterNeqCode, hc, he], hcls⟩

/-- If every element before `bad` has a readable `code` that does not match
and `bad` makes the subscript fail, the lazy lookup scan reaches `bad` and
fails with its lookup error. -/
theorem findFirst_error_of_bad (pre rest : List Json) (bad : Json) (code : String)
    (hpre : ∀ j ∈ pre, ∃ v, j.item "code" = .ok v ∧ pyEq v code = false)
    (hbad : ∃ e, bad.item "code" = .error e) :
    ∃ e, findFirst (pre ++ bad :: rest) code = .error e ∧
      (e = .keyError ∨ e = .typeError) := by
  induction pre with
  | nil =>
    obtain ⟨e, he⟩ := hbad
    exact ⟨e, by simp [findFirst, he], item_error_lookup _ _ _ he⟩
  | cons p pre' ih =>
    obtain ⟨v, hv, hne⟩ := hpre p (List.mem_cons_self p pre')
    obtain ⟨e, he, hcls⟩ := ih (fun j hj => hpre j (List.mem_cons_of_mem p hj))
    exact ⟨e, by simp [findFirst, hv, hne, he], hcls⟩

/-- C10 counterexample: the claim fails in both directions it quantifies
over.  With catalog `[A(code=1), {}]` — whose second element lacks `code` —
GET `/course/1` succeeds (the lazy scan stops at the match before touching
the bad element); and with the top-level document `{}` — not an array of
objects — POST `/delete_course/z` succeeds, rewriting the document to an
empty array, with no lookup error in either case. -/
theorem unguarded_code_field_access_cex :
    course_details (.content (.arr [Course.toJson ⟨"A", "1", "d", "i"⟩, .obj []])) "1" =
      .ok (.renderDetails (Course.toJson ⟨"A", "1", "d", "i"⟩),
        .content (.arr [Course.toJson ⟨"A", "1", "d", "i"⟩, .obj []])) ∧
    delete_course (.content (.obj [])) "z" =
      .ok (.redirectCatalog [(deletedMsg "z", "success")], .content (.arr [])) :=
  ⟨rfl, rfl⟩

/-- C10 amended: the field access `course[CODE]` is performed unguarded on
every element the scan reaches.  When the persisted catalog is a JSON array
with an element on which that access fails, POST `/delete_course/{code}`
always fails with an uncaught lookup error (`KeyError` or `TypeError`),
and GET `/course/{code}` fails with such an error whenever no matching
element precedes the failing one; a non-array top-level value or an
element shielded by an earlier match need not produce an error. -/
theorem unguarded_code_field_access (js pre rest : List Json) (bad : Json)
    (code : String) :
    ((∃ j ∈ js, ∃ e, j.item "code" = .error e) →
      ∃ e, delete_course (.content (.arr js)) code = .error e ∧
        (e = .keyError ∨ e = .typeError)) ∧
    ((∀ j ∈ pre, ∃ v, j.item "code" = .ok v ∧ pyEq v code = false) →
      (∃ e, bad.item "code" = .error e) →
      ∃ e, course_details (.content (.arr (pre ++ bad :: rest))) code = .error e ∧
        (e = .keyError ∨ e = .typeError)) := by
  constructor
  · intro h
    obtain ⟨e, he, hcls⟩ := pyFilterNeqCode_error_of_bad js code h
    exact ⟨e, by simp [delete_course, load_courses, Json.pyIter, he], hcls⟩
  · intro hpre hbad
    obtain ⟨e, he, hcls⟩ := findFirst_error_of_bad pre rest bad code hpre hbad
    exact ⟨e, by simp [course_details, load_courses, Json.pyIter, he], hcls⟩

/-- C10 amended witness: with the one-element catalog `[{}]`, both the
delete and the detail handler fail with a `KeyError`. -/
theorem unguarded_code_field_access_witness :
    (∃ e, delete_course (.content (.arr [Json.obj []])) "q" = .error e ∧
      (e = .keyError ∨ e = .typeError)) ∧
    (∃ e, course_details (.content (.arr [Json.obj []])) "q" = .error e ∧
      (e = .keyError ∨ e = .typeError)) :=
  ⟨(unguarded_code_field_access [Json.obj []] [] [] (.obj []) "q").1
      ⟨.obj [], List.mem_singleton.mpr rfl, .keyError, rfl⟩,
   (unguarded_code_field_access [Json.obj []] [] [] (.obj []) "q").2
      (fun j hj => absurd hj (List.not_mem_nil j)) ⟨.keyError, rfl⟩⟩
